import Mathlib

/-!
# Verification of the Reverie renderer core

A shallow embedding of the frame loop, swapchain recreation, command-buffer
recording and renderable (`Object`) management of the Reverie Vulkan renderer
(`src/vulkan/renderer.rs`, `src/vulkan/object.rs`), together with proofs of
the spec's claims about them.

Host-side control flow is embedded as pure Lean functions; each call into the
graphics API is recorded as an element of an event trace, and Rust panics are
an explicit boolean outcome.  Modules of the repository that are referenced
but absent from `src/` (swapchain internals, buffer modules, `game_object.rs`,
`utils`) are modelled from the spec where a claim needs them; each such
definition carries a doc comment starting `Modelled from the spec:`.
-/

namespace Reverie

/-- Scalar stand-in for `f32` field values.  No claim depends on floating
point arithmetic; only which values are bound or pushed matters, so scalar
payloads are uninterpreted integers. -/
abbrev Scalar := Int

/-- Modelled from the spec: `uv::Vec2` (external math crate) — a 2-component
vector, payload only. -/
structure Vec2 where
  x : Scalar
  y : Scalar
deriving DecidableEq, Repr

/-- Modelled from the spec: `uv::Vec3` — a 3-component vector (the RGB
color), payload only. -/
structure Vec3 where
  x : Scalar
  y : Scalar
  z : Scalar
deriving DecidableEq, Repr

/-- Modelled from the spec: the 2D transform of a renderable
(`translation vec2, rotation scalar, scale vec2`, spec §3 *Renderable*);
the defining module `game_object.rs` is not in `src/`. -/
structure Transform2d where
  translation : Vec2
  rotation : Scalar
  scale : Vec2
deriving DecidableEq, Repr

/-- Modelled from the spec: the 2×2 matrix produced by `transform2d.mat2()`.
The source of `mat2` is not in `src/` and the spec gives no formula (it says
only that the transform *yields* a 2×2 matrix), so the matrix is an
uninterpreted value determined by the transform it was derived from. -/
structure Mat2 where
  ofTransform : Transform2d
deriving DecidableEq, Repr

/-- Modelled from the spec: `transform2d.mat2()` — the derived 2×2 matrix. -/
def Transform2d.mat2 (t : Transform2d) : Mat2 := ⟨t⟩

/-- Modelled from the spec: a vertex is `pos: float[4], color: float[4]`
(spec §6 *Vertex layout*); `vertex.rs` is not in `src/`.  Payload only. -/
structure Vertex where
  pos : List Scalar
  color : List Scalar
deriving DecidableEq, Repr

/-- Modelled from the spec: a host-visible vertex buffer (spec §4.E).
`vertex_buffer.rs` is not in `src/`.  `buffer` is the underlying `vk::Buffer`
handle (`get_buffer()`), `elements` the current contents of the persistent
mapping, `capacityElems` the element capacity fixed at construction and
`vertexCount` the element count exposed by `get_vertex_count()`. -/
structure VertexBuffer where
  buffer : Nat
  capacityElems : Nat
  elements : List Vertex
  vertexCount : Nat
deriving DecidableEq, Repr

/-- Modelled from the spec: a host-visible `uint32` index buffer (spec §4.E).
`index_buffer.rs` is not in `src/`. -/
structure IndexBuffer where
  buffer : Nat
  capacityElems : Nat
  elements : List Nat
  indexCount : Nat
deriving DecidableEq, Repr

/-- Modelled from the spec: `update(data)` memcpys `data` into the mapping,
up to the allocated capacity, and updates the element count to `len(data)`
(spec §4.E). -/
def VertexBuffer.update_buffer (b : VertexBuffer) (data : List Vertex) :
    VertexBuffer :=
  { b with elements := data.take b.capacityElems, vertexCount := data.length }

/-- Modelled from the spec: `update(data)` for the index buffer (spec §4.E). -/
def IndexBuffer.update_buffer (b : IndexBuffer) (data : List Nat) :
    IndexBuffer :=
  { b with elements := data.take b.capacityElems, indexCount := data.length }

/-- Modelled from the spec: a mesh groups one vertex buffer (a vector that in
fact always holds exactly one) and an optional index buffer; `mesh.rs` is not
in `src/` but the field shape is fixed by its uses in `renderer.rs`
(`game_object.mesh.vertex_buffers`, `game_object.mesh.index_buffer`). -/
structure Mesh where
  vertex_buffers : List VertexBuffer
  index_buffer : Option IndexBuffer
deriving DecidableEq, Repr

/-- Modelled from the spec: a renderable aggregates a mesh, a 2D transform
and an RGB color (spec §3 *Renderable*); `game_object.rs` is not in `src/`
but the field shape is fixed by its uses in `renderer.rs`
(`.mesh`, `.transform2d`, `.color`). -/
structure GameObject where
  mesh : Mesh
  transform2d : Transform2d
  color : Vec3
deriving DecidableEq, Repr

/-- The `vk::Result` error codes the renderer distinguishes; every code it
does not match on explicitly behaves like `otherError`. -/
inductive VkResult where
  | errorOutOfDateKHR
  | suboptimalKHR
  | otherError
deriving DecidableEq, Repr

/-- Per-slot binary semaphores of the swapchain (spec §3 *Swapchain*). -/
inductive SemId where
  | imageAvailable (slot : Nat)
  | renderingFinished (slot : Nat)
deriving DecidableEq, Repr

/-- Per-slot host-visible fences of the swapchain. -/
inductive FenceId where
  | mayBeginDrawing (slot : Nat)
deriving DecidableEq, Repr

/-- The single pipeline stage the submission waits at. -/
inductive PipelineStage where
  | colorAttachmentOutput
deriving DecidableEq, Repr

/-- The fields of the `vk::SubmitInfo` built in `draw_frame`
(`renderer.rs:314-320`); command buffers are identified by their index in
`self.command_buffers`. -/
structure SubmitInfo where
  waitSemaphores : List SemId
  waitDstStageMask : List PipelineStage
  commandBuffers : List Nat
  signalSemaphores : List SemId
deriving DecidableEq, Repr

/-- Host-side graphics-API calls of `draw_frame` and `recreate_swapchain`,
in the order the host issues them. -/
inductive Event where
  | advanceSlot (newSlot : Nat)
  | acquireNextImage (signalSem : SemId)
  | waitForFences (fence : FenceId)
  | resetFences (fence : FenceId)
  | queueSubmit (info : SubmitInfo) (fence : FenceId)
  | queuePresent (waitSems : List SemId) (imageIndex : Nat)
  | deviceWaitIdle
  | freeCommandBuffers
  | destroyPools
  | destroyPipeline
  | destroyRenderpass
  | destroySwapchain
  | createSwapchain
  | createRenderpass
  | createFramebuffers
  | createPipeline
  | createPools
  | createCommandBuffers
  | fillCommandBuffers (renderables : List GameObject)
deriving DecidableEq, Repr

/-- The renderer state visible to the claims: the swapchain's image count and
`current_image` slot, the host resize flag, and the renderables list. -/
structure RendererState where
  imageCount : Nat
  currentImage : Nat
  isFramebufferResized : Bool
  gameObjects : List GameObject
deriving DecidableEq, Repr

/-- The initial renderer state after `VulkanRenderer::new`:
`is_framebuffer_resized = false` and `game_objects = vec![]`
(`renderer.rs:83,98`).  Modelled from the spec: `swapchain.rs` is not in
`src/`; per spec §3 `current_image` is the frame index modulo `N` and per
§8.1 it equals `k mod N` after `k` frames, so a fresh swapchain starts at
`current_image = 0` with image count `N`. -/
def VulkanRenderer.initialState (N : Nat) : RendererState :=
  { imageCount := N, currentImage := 0, isFramebufferResized := false,
    gameObjects := [] }

/-- The ordered API calls of `VulkanRenderer::recreate_swapchain`
(`renderer.rs:150-185`): `device_wait_idle`; free the command buffers;
destroy pools, pipeline, renderpass, swapchain; rebuild swapchain,
renderpass, framebuffers, pipeline, pools, command buffers; re-record all
command buffers against the current renderables list. -/
def recreateEvents (renderables : List GameObject) : List Event :=
  [ .deviceWaitIdle, .freeCommandBuffers,
    .destroyPools, .destroyPipeline, .destroyRenderpass, .destroySwapchain,
    .createSwapchain, .createRenderpass, .createFramebuffers,
    .createPipeline, .createPools, .createCommandBuffers,
    .fillCommandBuffers renderables ]

/-- The state effect of `VulkanRenderer::recreate_swapchain`: `self.swapchain`
is replaced by a fresh `VulkanSwapchain::new` (so `current_image` restarts at
0; the image count, driven by the same surface, is modelled as unchanged).
The routine does not touch `is_framebuffer_resized` (`renderer.rs:150-185`
contains no write to it) nor `game_objects`. -/
def VulkanRenderer.recreate_swapchain (s : RendererState) : RendererState :=
  { s with currentImage := 0 }

/-- Result of one `draw_frame` call: the post state, the trace of host API
calls issued, and whether the call panicked (`expect`/`panic!`). -/
structure DrawResult where
  state : RendererState
  trace : List Event
  panicked : Bool
deriving DecidableEq, Repr

/-- `VulkanRenderer::draw_frame` (`renderer.rs:286-351`), with the results of
the two fallible driver calls passed in: `acq` is what
`acquire_next_image` returned (`Ok((image_index, is_suboptimal))` or an
error code) and `pres` what `queue_present` returned.  Mirrors the source:
advance `current_image`; acquire (on `ERROR_OUT_OF_DATE_KHR` recreate and
return, on any other error panic); wait the slot's fence; reset it; submit
with the slot's semaphores and fence; present; then recreate iff the present
result was `ERROR_OUT_OF_DATE_KHR`/`SUBOPTIMAL_KHR` or the resize flag was
set (clearing the flag first), panicking on any other present error. -/
def VulkanRenderer.draw_frame (s : RendererState)
    (acq : Except VkResult (Nat × Bool)) (pres : Except VkResult Bool) :
    DrawResult :=
  let ci := (s.currentImage + 1) % s.imageCount
  let s1 : RendererState := { s with currentImage := ci }
  let t0 : List Event :=
    [.advanceSlot ci, .acquireNextImage (.imageAvailable ci)]
  match acq with
  | .error .errorOutOfDateKHR =>
      ⟨VulkanRenderer.recreate_swapchain s1,
       t0 ++ recreateEvents s1.gameObjects, false⟩
  | .error _ => ⟨s1, t0, true⟩
  | .ok (imageIndex, _isSubOptimal) =>
      let f : FenceId := .mayBeginDrawing ci
      let info : SubmitInfo :=
        { waitSemaphores := [.imageAvailable ci],
          waitDstStageMask := [.colorAttachmentOutput],
          commandBuffers := [imageIndex],
          signalSemaphores := [.renderingFinished ci] }
      let t1 : List Event := t0 ++
        [.waitForFences f, .resetFences f, .queueSubmit info f,
         .queuePresent [.renderingFinished ci] imageIndex]
      let isResized : Option Bool :=
        match pres with
        | .ok _ => some s1.isFramebufferResized
        | .error .errorOutOfDateKHR => some true
        | .error .suboptimalKHR => some true
        | .error .otherError => none
      match isResized with
      | none => ⟨s1, t1, true⟩
      | some false => ⟨s1, t1, false⟩
      | some true =>
          let s2 : RendererState := { s1 with isFramebufferResized := false }
          ⟨VulkanRenderer.recreate_swapchain s2,
           t1 ++ recreateEvents s2.gameObjects, false⟩

/-! ## Command-buffer recording (`fill_commandbuffers`) -/

/-- Shader-stage flags of a `cmd_push_constants` call. -/
structure ShaderStageFlags where
  vertex : Bool
  fragment : Bool
deriving DecidableEq, Repr

/-- `vk::ShaderStageFlags::VERTEX | vk::ShaderStageFlags::FRAGMENT`
(`renderer.rs:265`). -/
def vertexAndFragment : ShaderStageFlags := ⟨true, true⟩

/-- The push-constant block built per draw in `fill_commandbuffers`
(`renderer.rs:258-262`, struct `PushConstantData` at `renderer.rs:378-383`):
the transform matrix, the translation offset and the 16-byte-aligned color.
Field values only; the byte-level layout is modelled separately below. -/
structure PushConstantData where
  transform : Mat2
  offset : Vec2
  color : Vec3
deriving DecidableEq, Repr

/-- Commands recorded into one command buffer by `fill_commandbuffers`
(`renderer.rs:205-282`), in issue order.  `beginRenderPass` carries the index
of the framebuffer it targets; buffers are identified by their handles. -/
inductive Cmd where
  | beginCommandBuffer
  | beginRenderPass (framebufferIndex : Nat)
  | setViewport
  | setScissor
  | bindPipeline
  | bindIndexBuffer (buffer : Nat)
  | bindVertexBuffer (buffer : Nat)
  | pushConstants (stages : ShaderStageFlags) (byteOffset : Nat)
      (data : PushConstantData)
  | drawIndexed (indexCount instanceCount firstIndex vertexOffset
      firstInstance : Nat)
  | draw (vertexCount instanceCount firstVertex firstInstance : Nat)
  | endRenderPass
  | endCommandBuffer
deriving DecidableEq, Repr

/-- The commands recorded for one renderable inside the renderpass
(`renderer.rs:250-277`): bind the graphics pipeline; if the mesh has an index
buffer, bind it and then, per vertex buffer, bind it, push the constants and
`cmd_draw_indexed(index_count, 1, 0, 0, 0)`; otherwise, per vertex buffer,
bind it and `cmd_draw(vertex_count, 1, 0, 0)`. -/
def recordGameObject (g : GameObject) : List Cmd :=
  Cmd.bindPipeline ::
  match g.mesh.index_buffer with
  | some ib =>
      Cmd.bindIndexBuffer ib.buffer ::
      (g.mesh.vertex_buffers.map (fun vb =>
        [Cmd.bindVertexBuffer vb.buffer,
         Cmd.pushConstants vertexAndFragment 0
           ⟨g.transform2d.mat2, g.transform2d.translation, g.color⟩,
         Cmd.drawIndexed ib.indexCount 1 0 0 0])).flatten
  | none =>
      (g.mesh.vertex_buffers.map (fun vb =>
        [Cmd.bindVertexBuffer vb.buffer,
         Cmd.draw vb.vertexCount 1 0 0])).flatten

/-- The commands `fill_commandbuffers` records into command buffer `i`
(`renderer.rs:205-282`): begin the buffer; begin the renderpass targeting
`framebuffers[i]`; set viewport and scissor; record every renderable of
`game_objects` in list order; end the renderpass and the buffer. -/
def fillCommandbuffer (i : Nat) (game_objects : List GameObject) : List Cmd :=
  [Cmd.beginCommandBuffer, Cmd.beginRenderPass i,
   Cmd.setViewport, Cmd.setScissor] ++
  (game_objects.map recordGameObject).flatten ++
  [Cmd.endRenderPass, Cmd.endCommandBuffer]

/-! ## `Object` (`src/vulkan/object.rs`) -/

/-- `Object` (`object.rs:8-11`): a vector of vertex buffers and an optional
index buffer. -/
structure Object where
  vertex_buffers : List VertexBuffer
  index_buffer : Option IndexBuffer
deriving DecidableEq, Repr

/-- Modelled from the spec: `VertexBuffer::new` allocates a buffer in
host-visible memory with the requested byte size and an empty persistent
mapping (spec §4.E); `vertex_buffer.rs` is not in `src/`.  The byte size is
`count * sizeof(Vertex)` with `sizeof(Vertex) = 32` (spec §6), so the
element capacity is the requested count. -/
def VertexBuffer.new (handle : Nat) (capacityElems : Nat) : VertexBuffer :=
  { buffer := handle, capacityElems := capacityElems, elements := [],
    vertexCount := 0 }

/-- Modelled from the spec: `IndexBuffer::new`, an `INDEX_BUFFER`-usage
buffer with `uint32` indices (spec §4.E); `index_buffer.rs` is not in
`src/`. -/
def IndexBuffer.new (handle : Nat) (capacityElems : Nat) : IndexBuffer :=
  { buffer := handle, capacityElems := capacityElems, elements := [],
    indexCount := 0 }

/-- `Object::new` (`object.rs:14-30`): push one vertex buffer sized for
`vertex_count`; if `index_count > 0` also build an index buffer; both
branches return `Ok`.  Buffer handles are uninterpreted (0 and 1). -/
def Object.new (vertex_count index_count : Nat) : Except VkResult Object :=
  let vertex_buffers := [VertexBuffer.new 0 vertex_count]
  if index_count > 0 then
    .ok { vertex_buffers := vertex_buffers,
          index_buffer := some (IndexBuffer.new 1 index_count) }
  else
    .ok { vertex_buffers := vertex_buffers, index_buffer := none }

/-- `Object::update_vertices_buffer` (`object.rs:32-34`):
`self.vertex_buffers[0].update_buffer(data)`.  `none` models the Rust
index-out-of-bounds panic when the vector is empty. -/
def Object.update_vertices_buffer (o : Object) (data : List Vertex) :
    Option Object :=
  match o.vertex_buffers with
  | [] => none
  | vb :: rest =>
      some { o with vertex_buffers := vb.update_buffer data :: rest }

/-- The diagnostic printed by `Object::update_indices_buffer` when the object
has no index buffer (`object.rs:42`). -/
def indexlessUpdateDiagnostic : String :=
  "Tried to update indices buffer on a Object created without an index buffer!"

/-- `Object::update_indices_buffer` (`object.rs:36-45`): forward to the index
buffer when present; otherwise print a diagnostic and return.  The second
component is the list of diagnostics emitted; the function is total (the
Rust function returns `()`either way). -/
def Object.update_indices_buffer (o : Object) (data : List Nat) :
    Object × List String :=
  match o.index_buffer with
  | some ib =>
      ({ o with index_buffer := some (ib.update_buffer data) }, [])
  | none => (o, [indexlessUpdateDiagnostic])

/-- Modelled from the spec: destroying a buffer unmaps and frees it via the
allocator (spec §4.E); contents are gone, the vector slot remains. -/
def VertexBuffer.destroyed (b : VertexBuffer) : VertexBuffer :=
  { b with elements := [] }

/-- Modelled from the spec: destroying an index buffer (spec §4.E). -/
def IndexBuffer.destroyed (b : IndexBuffer) : IndexBuffer :=
  { b with elements := [] }

/-- `Object::destroy` (`object.rs:47-54`): destroy every vertex buffer and
the index buffer if present; the `vertex_buffers` vector itself is iterated,
never resized. -/
def Object.destroy (o : Object) : Object :=
  { vertex_buffers := o.vertex_buffers.map VertexBuffer.destroyed,
    index_buffer := o.index_buffer.map IndexBuffer.destroyed }

/-! ## Teardown order (`impl Drop for VulkanRenderer`) -/

/-- The resources of `VulkanRenderer` at the granularity of the teardown
claim, plus the game objects' meshes which the destructor also releases. -/
inductive Resource where
  | inst
  | debugMessenger
  | surface
  | device
  | swapchain
  | renderpass
  | pipeline
  | pools
  | allocator
  | commandBuffers
  | meshes
deriving DecidableEq, Repr

/-- The creation order of `VulkanRenderer::new` (`renderer.rs:40-100`):
instance (line 43), debug messenger (46), surface (48), logical device (55),
swapchain (57), renderpass (59), pipeline (63), pools (65), allocator (68),
command buffers (77).  (Framebuffers are created inside the swapchain
between renderpass and pipeline; the claim does not list them.) -/
def creationOrder : List Resource :=
  [.inst, .debugMessenger, .surface, .device, .swapchain, .renderpass,
   .pipeline, .pools, .allocator, .commandBuffers]

/-- A step of the destructor: the initial `device_wait_idle` or the
destruction of one resource. -/
inductive DropStep where
  | waitIdle
  | destroy (r : Resource)
deriving DecidableEq, Repr

/-- The steps of `impl Drop for VulkanRenderer` (`renderer.rs:354-376`) in
source order: `device_wait_idle`; destroy every game object's mesh; free the
command buffers; clean up pools, pipeline, renderpass, swapchain; drop the
`ManuallyDrop` allocator; destroy device, surface, debug messenger,
instance. -/
def dropTrace : List DropStep :=
  [.waitIdle, .destroy .meshes, .destroy .commandBuffers, .destroy .pools,
   .destroy .pipeline, .destroy .renderpass, .destroy .swapchain,
   .destroy .allocator, .destroy .device, .destroy .surface,
   .destroy .debugMessenger, .destroy .inst]

/-- The sequence of resources destroyed by the destructor, in order. -/
def dropDestroyOrder : List Resource :=
  dropTrace.filterMap (fun st =>
    match st with
    | .waitIdle => none
    | .destroy r => some r)

/-! ## Push-constant byte layout (`PushConstantData`, `renderer.rs:378-383`)

`#[repr(C)] struct PushConstantData { _transform: uv::Mat2, _offset: uv::Vec2,
_color: align::Align16<uv::Vec3> }`, laid out by the standard C struct rules:
each field at the next multiple of its alignment, the struct size padded to a
multiple of the largest field alignment. -/

/-- Round `off` up to the next multiple of `a`. -/
def alignUp (off a : Nat) : Nat := ((off + a - 1) / a) * a

/-- Size and alignment of a C type. -/
structure CType where
  size : Nat
  alignment : Nat
deriving DecidableEq, Repr

/-- Modelled from the spec: `uv::Mat2` of the external `ultraviolet` crate —
a `repr(C)` 2×2 column-major `f32` matrix (spec §6: 16 bytes at offset 0),
four tightly packed 4-byte floats. -/
def uvMat2Ty : CType := ⟨16, 4⟩

/-- Modelled from the spec: `uv::Vec2` — two tightly packed `f32`. -/
def uvVec2Ty : CType := ⟨8, 4⟩

/-- Modelled from the spec: `uv::Vec3` — three tightly packed `f32`. -/
def uvVec3Ty : CType := ⟨12, 4⟩

/-- Modelled from the spec: `align::Align16<T>` of `crate::utils` (not in
`src/`) — a wrapper imposing 16-byte alignment on its payload (spec §9: "a
packed struct with explicit 16-byte alignment on the `color` field"), hence
size rounded up to a multiple of 16. -/
def align16Ty (t : CType) : CType := ⟨alignUp t.size 16, max t.alignment 16⟩

/-- Field offsets of a `repr(C)` struct starting at `off`. -/
def reprCOffsets (off : Nat) : List CType → List Nat
  | [] => []
  | t :: ts =>
      let o := alignUp off t.alignment
      o :: reprCOffsets (o + t.size) ts

/-- End offset (before tail padding) of a `repr(C)` struct. -/
def reprCEnd (off : Nat) : List CType → Nat
  | [] => off
  | t :: ts => reprCEnd (alignUp off t.alignment + t.size) ts

/-- Alignment of a `repr(C)` struct: the largest field alignment. -/
def reprCAlignment (fields : List CType) : Nat :=
  fields.foldl (fun a t => max a t.alignment) 1

/-- Size of a `repr(C)` struct: end offset padded to the struct alignment. -/
def reprCSize (fields : List CType) : Nat :=
  alignUp (reprCEnd 0 fields) (reprCAlignment fields)

/-- The fields of `PushConstantData` in declaration order
(`renderer.rs:378-383`). -/
def pushConstantFields : List CType := [uvMat2Ty, uvVec2Ty, align16Ty uvVec3Ty]

/-! ## Trace predicates -/

/-- Recognizes a `wait_for_fences` call. -/
def Event.isWaitF : Event → Bool
  | .waitForFences _ => true
  | _ => false

/-- Recognizes a `reset_fences` call. -/
def Event.isResetF : Event → Bool
  | .resetFences _ => true
  | _ => false

/-- Recognizes a `queue_submit` call. -/
def Event.isQSubmit : Event → Bool
  | .queueSubmit _ _ => true
  | _ => false

/-- Recognizes a `queue_present` call. -/
def Event.isQPresent : Event → Bool
  | .queuePresent _ _ => true
  | _ => false

/-- Recognizes the `current_image` advance at the top of `draw_frame`. -/
def Event.isAdvance : Event → Bool
  | .advanceSlot _ => true
  | _ => false

/-- The trace contains a complete run of `recreate_swapchain` against the
renderables list `gos`. -/
def ranRecreate (gos : List GameObject) (t : List Event) : Prop :=
  ∃ pre post, t = pre ++ recreateEvents gos ++ post

/-! ## Claim theorems -/

/-- **C1**: in every call to `draw_frame` that reaches submission, the fence
`may_begin_drawing[current_image]` is reset exactly once — strictly after the
host's wait on that same fence and strictly before the queue submission — and
the submission waits on `image_available[current_image]` at stage
`COLOR_ATTACHMENT_OUTPUT`, signals `rendering_finished[current_image]`,
submits `command_buffers[image_index]`, and uses
`may_begin_drawing[current_image]` as its signal fence.  (The trace up to the
submission is exactly acquire, wait, reset, submit on the slot's objects, and
no reset, wait or submit occurs afterwards.) -/
theorem draw_frame_submission_discipline
    (s : RendererState) (acq : Except VkResult (Nat × Bool))
    (pres : Except VkResult Bool)
    (hsub : (VulkanRenderer.draw_frame s acq pres).trace.countP
      Event.isQSubmit ≠ 0) :
    ∃ idx sub suffix,
      acq = .ok (idx, sub) ∧
      (VulkanRenderer.draw_frame s acq pres).trace =
        [.advanceSlot ((s.currentImage + 1) % s.imageCount),
         .acquireNextImage
           (.imageAvailable ((s.currentImage + 1) % s.imageCount)),
         .waitForFences
           (.mayBeginDrawing ((s.currentImage + 1) % s.imageCount)),
         .resetFences
           (.mayBeginDrawing ((s.currentImage + 1) % s.imageCount)),
         .queueSubmit
           { waitSemaphores :=
               [.imageAvailable ((s.currentImage + 1) % s.imageCount)],
             waitDstStageMask := [.colorAttachmentOutput],
             commandBuffers := [idx],
             signalSemaphores :=
               [.renderingFinished ((s.currentImage + 1) % s.imageCount)] }
           (.mayBeginDrawing ((s.currentImage + 1) % s.imageCount))] ++
        suffix ∧
      suffix.countP Event.isResetF = 0 ∧
      suffix.countP Event.isWaitF = 0 ∧
      suffix.countP Event.isQSubmit = 0 := by
  cases acq with
  | error e =>
      cases e <;>
        simp [VulkanRenderer.draw_frame, recreateEvents, List.countP,
          List.countP.go, Event.isQSubmit] at hsub
  | ok p =>
      obtain ⟨idx, sub⟩ := p
      refine ⟨idx, sub, ?_⟩
      cases pres with
      | ok b =>
          cases hb : s.isFramebufferResized with
          | false =>
              refine ⟨[.queuePresent
                [.renderingFinished ((s.currentImage + 1) % s.imageCount)]
                idx], rfl, ?_, ?_, ?_, ?_⟩ <;>
                simp [VulkanRenderer.draw_frame, hb, List.countP,
                  List.countP.go, Event.isResetF, Event.isWaitF,
                  Event.isQSubmit]
          | true =>
              refine ⟨[.queuePresent
                [.renderingFinished ((s.currentImage + 1) % s.imageCount)]
                idx] ++ recreateEvents s.gameObjects, rfl, ?_, ?_, ?_, ?_⟩ <;>
                simp [VulkanRenderer.draw_frame, hb, recreateEvents,
                  List.countP, List.countP.go, Event.isResetF, Event.isWaitF,
                  Event.isQSubmit]
      | error e =>
          cases e with
          | errorOutOfDateKHR =>
              refine ⟨[.queuePresent
                [.renderingFinished ((s.currentImage + 1) % s.imageCount)]
                idx] ++ recreateEvents s.gameObjects, rfl, ?_, ?_, ?_, ?_⟩ <;>
                simp [VulkanRenderer.draw_frame, recreateEvents,
                  List.countP, List.countP.go, Event.isResetF, Event.isWaitF,
                  Event.isQSubmit]
          | suboptimalKHR =>
              refine ⟨[.queuePresent
                [.renderingFinished ((s.currentImage + 1) % s.imageCount)]
                idx] ++ recreateEvents s.gameObjects, rfl, ?_, ?_, ?_, ?_⟩ <;>
                simp [VulkanRenderer.draw_frame, recreateEvents,
                  List.countP, List.countP.go, Event.isResetF, Event.isWaitF,
                  Event.isQSubmit]
          | otherError =>
              refine ⟨[.queuePresent
                [.renderingFinished ((s.currentImage + 1) % s.imageCount)]
                idx], rfl, ?_, ?_, ?_, ?_⟩ <;>
                simp [VulkanRenderer.draw_frame, List.countP,
                  List.countP.go, Event.isResetF, Event.isWaitF,
                  Event.isQSubmit]

/-- Witness for **C1** at a concrete state: two images, slot 0, a successful
acquire of image 1 and a clean present. -/
theorem draw_frame_submission_discipline_witness :
    ((VulkanRenderer.draw_frame (VulkanRenderer.initialState 2)
        (.ok (1, false)) (.ok false)).trace.countP Event.isQSubmit ≠ 0) ∧
    (∃ idx sub suffix,
      (Except.ok (1, false) : Except VkResult (Nat × Bool)) = .ok (idx, sub) ∧
      (VulkanRenderer.draw_frame (VulkanRenderer.initialState 2)
        (.ok (1, false)) (.ok false)).trace =
        [.advanceSlot (((VulkanRenderer.initialState 2).currentImage + 1) %
            (VulkanRenderer.initialState 2).imageCount),
         .acquireNextImage
           (.imageAvailable (((VulkanRenderer.initialState 2).currentImage + 1) %
              (VulkanRenderer.initialState 2).imageCount)),
         .waitForFences
           (.mayBeginDrawing (((VulkanRenderer.initialState 2).currentImage + 1) %
              (VulkanRenderer.initialState 2).imageCount)),
         .resetFences
           (.mayBeginDrawing (((VulkanRenderer.initialState 2).currentImage + 1) %
              (VulkanRenderer.initialState 2).imageCount)),
         .queueSubmit
           { waitSemaphores :=
               [.imageAvailable (((VulkanRenderer.initialState 2).currentImage + 1) %
                  (VulkanRenderer.initialState 2).imageCount)],
             waitDstStageMask := [.colorAttachmentOutput],
             commandBuffers := [idx],
             signalSemaphores :=
               [.renderingFinished (((VulkanRenderer.initialState 2).currentImage + 1) %
                  (VulkanRenderer.initialState 2).imageCount)] }
           (.mayBeginDrawing (((VulkanRenderer.initialState 2).currentImage + 1) %
              (VulkanRenderer.initialState 2).imageCount))] ++ suffix ∧
      suffix.countP Event.isResetF = 0 ∧
      suffix.countP Event.isWaitF = 0 ∧
      suffix.countP Event.isQSubmit = 0) :=
  ⟨by decide,
   draw_frame_submission_discipline (VulkanRenderer.initialState 2)
     (.ok (1, false)) (.ok false) (by decide)⟩

/-- A run of `k` successful frames from the initial state: every `draw_frame`
call gets a successful acquire `Ok((idx j, sub j))` and a clean present
`Ok(b j)`, so no recreation is triggered. -/
def successRun (N : Nat) (idx : Nat → Nat) (sub b : Nat → Bool) :
    Nat → RendererState
  | 0 => VulkanRenderer.initialState N
  | k + 1 =>
      (VulkanRenderer.draw_frame (successRun N idx sub b k)
        (.ok (idx k, sub k)) (.ok (b k))).state

/-- Invariant of a successful run: the image count is preserved, the slot
equals the frame count modulo `N`, and the resize flag stays clear. -/
theorem successRun_invariant (N : Nat) (idx : Nat → Nat) (sub b : Nat → Bool)
    (k : Nat) :
    (successRun N idx sub b k).imageCount = N ∧
    (successRun N idx sub b k).currentImage = k % N ∧
    (successRun N idx sub b k).isFramebufferResized = false := by
  induction k with
  | zero => simp [successRun, VulkanRenderer.initialState]
  | succ k ih =>
      obtain ⟨h1, h2, h3⟩ := ih
      refine ⟨?_, ?_, ?_⟩ <;>
        simp [successRun, VulkanRenderer.draw_frame, h1, h2, h3,
          Nat.add_mod_left, (Nat.mod_modEq k N).add_right 1]

/-- **C2**: every call to `draw_frame` first advances the slot via
`current_image = (current_image + 1) mod N` (the first trace event is the
advance to that value), and after `k` successful frames from the initial
state `current_image = k mod N`. -/
theorem draw_frame_slot_cycling :
    (∀ (s : RendererState) (acq : Except VkResult (Nat × Bool))
        (pres : Except VkResult Bool),
      (VulkanRenderer.draw_frame s acq pres).trace.head? =
        some (.advanceSlot ((s.currentImage + 1) % s.imageCount))) ∧
    (∀ (N : Nat) (idx : Nat → Nat) (sub b : Nat → Bool) (k : Nat), 0 < N →
      (successRun N idx sub b k).currentImage = k % N) := by
  constructor
  · intro s acq pres
    cases acq with
    | error e => cases e <;> simp [VulkanRenderer.draw_frame]
    | ok p =>
        obtain ⟨i, su⟩ := p
        cases pres with
        | ok bb =>
            cases hb : s.isFramebufferResized <;>
              simp [VulkanRenderer.draw_frame, hb]
        | error e => cases e <;> simp [VulkanRenderer.draw_frame]
  · intro N idx sub b k _
    exact (successRun_invariant N idx sub b k).2.1

/-- Witness for **C2** at concrete inputs: a 3-image swapchain after 5
successful frames sits at slot `5 mod 3 = 2`, and a concrete `draw_frame`
call advances the slot first. -/
theorem draw_frame_slot_cycling_witness :
    ((VulkanRenderer.draw_frame (VulkanRenderer.initialState 3)
        (.ok (1, false)) (.ok false)).trace.head? =
      some (.advanceSlot (((VulkanRenderer.initialState 3).currentImage + 1) %
        (VulkanRenderer.initialState 3).imageCount))) ∧
    (0 < 3 ∧ (successRun 3 (fun _ => 1) (fun _ => false)
        (fun _ => false) 5).currentImage = 5 % 3) :=
  ⟨draw_frame_slot_cycling.1 (VulkanRenderer.initialState 3)
      (.ok (1, false)) (.ok false),
   by decide,
   draw_frame_slot_cycling.2 3 (fun _ => 1) (fun _ => false)
     (fun _ => false) 5 (by decide)⟩

/-- **C3**: if `acquireNextImage` returns `OUT_OF_DATE`, `draw_frame` runs
the swapchain recreation and returns immediately — the trace is just the
advance, the acquire and the recreation, with no fence wait, no submit, no
present, no panic, and the slot is not advanced a second time; a
`SUBOPTIMAL` acquire result (`Ok((idx, true))` in `ash`) proceeds to
submission like a success; any other acquire error panics. -/
theorem draw_frame_acquire_handling :
    (∀ (s : RendererState) (pres : Except VkResult Bool), 0 < s.imageCount →
      (VulkanRenderer.draw_frame s (.error .errorOutOfDateKHR) pres).trace =
        [.advanceSlot ((s.currentImage + 1) % s.imageCount),
         .acquireNextImage
           (.imageAvailable ((s.currentImage + 1) % s.imageCount))] ++
        recreateEvents s.gameObjects ∧
      (VulkanRenderer.draw_frame s (.error .errorOutOfDateKHR) pres).trace.countP
        Event.isWaitF = 0 ∧
      (VulkanRenderer.draw_frame s (.error .errorOutOfDateKHR) pres).trace.countP
        Event.isQSubmit = 0 ∧
      (VulkanRenderer.draw_frame s (.error .errorOutOfDateKHR) pres).trace.countP
        Event.isQPresent = 0 ∧
      (VulkanRenderer.draw_frame s (.error .errorOutOfDateKHR) pres).trace.countP
        Event.isAdvance = 1 ∧
      (VulkanRenderer.draw_frame s (.error .errorOutOfDateKHR) pres).panicked =
        false) ∧
    (∀ (s : RendererState) (idx : Nat) (pres : Except VkResult Bool),
      (VulkanRenderer.draw_frame s (.ok (idx, true)) pres).trace.countP
        Event.isQSubmit = 1) ∧
    (∀ (s : RendererState) (pres : Except VkResult Bool) (e : VkResult),
      e ≠ VkResult.errorOutOfDateKHR →
      (VulkanRenderer.draw_frame s (.error e) pres).panicked = true) := by
  refine ⟨?_, ?_, ?_⟩
  · intro s pres _
    refine ⟨rfl, ?_, ?_, ?_, ?_, rfl⟩ <;>
      simp [VulkanRenderer.draw_frame, recreateEvents, List.countP,
        List.countP.go, Event.isWaitF, Event.isQSubmit, Event.isQPresent,
        Event.isAdvance]
  · intro s idx pres
    cases pres with
    | ok bb =>
        cases hb : s.isFramebufferResized <;>
          simp [VulkanRenderer.draw_frame, hb, recreateEvents, List.countP,
            List.countP.go, Event.isQSubmit]
    | error e =>
        cases e <;>
          simp [VulkanRenderer.draw_frame, recreateEvents, List.countP,
            List.countP.go, Event.isQSubmit]
  · intro s pres e he
    cases e with
    | errorOutOfDateKHR => exact absurd rfl he
    | suboptimalKHR => simp [VulkanRenderer.draw_frame]
    | otherError => simp [VulkanRenderer.draw_frame]

/-- Witness for **C3** at a concrete state: a 2-image swapchain at slot 0
with an `OUT_OF_DATE` acquire. -/
theorem draw_frame_acquire_handling_witness :
    (0 < (VulkanRenderer.initialState 2).imageCount ∧
      (VulkanRenderer.draw_frame (VulkanRenderer.initialState 2)
          (.error .errorOutOfDateKHR) (.ok false)).trace =
        [.advanceSlot (((VulkanRenderer.initialState 2).currentImage + 1) %
            (VulkanRenderer.initialState 2).imageCount),
         .acquireNextImage
           (.imageAvailable (((VulkanRenderer.initialState 2).currentImage + 1) %
              (VulkanRenderer.initialState 2).imageCount))] ++
        recreateEvents (VulkanRenderer.initialState 2).gameObjects) ∧
    (VulkanRenderer.draw_frame (VulkanRenderer.initialState 2)
        (.ok (0, true)) (.ok false)).trace.countP Event.isQSubmit = 1 ∧
    (VkResult.otherError ≠ VkResult.errorOutOfDateKHR ∧
      (VulkanRenderer.draw_frame (VulkanRenderer.initialState 2)
          (.error .otherError) (.ok false)).panicked = true) :=
  ⟨⟨by decide,
    (draw_frame_acquire_handling.1 (VulkanRenderer.initialState 2)
      (.ok false) (by decide)).1⟩,
   draw_frame_acquire_handling.2.1 (VulkanRenderer.initialState 2) 0
     (.ok false),
   by decide,
   draw_frame_acquire_handling.2.2 (VulkanRenderer.initialState 2)
     (.ok false) .otherError (by decide)⟩

/-- A trace that ends with a full recreation run ran the recreation. -/
theorem ranRecreate_append_left (gos : List GameObject) (pre : List Event) :
    ranRecreate gos (pre ++ recreateEvents gos) :=
  ⟨pre, [], by simp⟩

/-- A trace shorter than the recreation sequence cannot contain it. -/
theorem not_ranRecreate_of_short (gos : List GameObject) (t : List Event)
    (h : t.length < (recreateEvents gos).length) : ¬ ranRecreate gos t := by
  rintro ⟨pre, post, rfl⟩
  simp [recreateEvents] at h
  omega

/-- **C4**: after presenting, `draw_frame` runs the swapchain recreation if
and only if the present result is `OUT_OF_DATE` or `SUBOPTIMAL` or the host
resize flag `is_framebuffer_resized` is set; the invalidation results are
recovered without panicking (and `draw_frame` returns nothing to surface
them), while any other present error — and only it — panics. -/
theorem draw_frame_present_recreation
    (s : RendererState) (idx : Nat) (sub : Bool)
    (pres : Except VkResult Bool) (_hN : 0 < s.imageCount) :
    (ranRecreate s.gameObjects
        (VulkanRenderer.draw_frame s (.ok (idx, sub)) pres).trace ↔
      (pres = .error .errorOutOfDateKHR ∨ pres = .error .suboptimalKHR ∨
        ((∃ b, pres = .ok b) ∧ s.isFramebufferResized = true))) ∧
    ((pres = .error .errorOutOfDateKHR ∨ pres = .error .suboptimalKHR) →
      (VulkanRenderer.draw_frame s (.ok (idx, sub)) pres).panicked = false) ∧
    ((VulkanRenderer.draw_frame s (.ok (idx, sub)) pres).panicked = true ↔
      pres = .error .otherError) := by
  cases pres with
  | ok b =>
      cases hb : s.isFramebufferResized with
      | true =>
          refine ⟨?_, ?_, ?_⟩
          · constructor
            · intro _
              exact Or.inr (Or.inr ⟨⟨b, rfl⟩, rfl⟩)
            · intro _
              simp only [VulkanRenderer.draw_frame, hb]
              exact ranRecreate_append_left _ _
          · intro h
            rcases h with h | h <;> exact absurd h (by simp)
          · simp [VulkanRenderer.draw_frame, hb]
      | false =>
          refine ⟨?_, ?_, ?_⟩
          · constructor
            · intro h
              refine absurd h (not_ranRecreate_of_short _ _ ?_)
              simp [VulkanRenderer.draw_frame, hb, recreateEvents]
            · rintro (h | h | ⟨-, h⟩)
              · exact absurd h (by simp)
              · exact absurd h (by simp)
              · exact absurd h (by simp [hb])
          · intro h
            rcases h with h | h <;> exact absurd h (by simp)
          · simp [VulkanRenderer.draw_frame, hb]
  | error e =>
      cases e with
      | errorOutOfDateKHR =>
          refine ⟨?_, ?_, ?_⟩
          · constructor
            · intro _
              exact Or.inl rfl
            · intro _
              simp only [VulkanRenderer.draw_frame]
              exact ranRecreate_append_left _ _
          · intro _
            simp [VulkanRenderer.draw_frame]
          · simp [VulkanRenderer.draw_frame]
      | suboptimalKHR =>
          refine ⟨?_, ?_, ?_⟩
          · constructor
            · intro _
              exact Or.inr (Or.inl rfl)
            · intro _
              simp only [VulkanRenderer.draw_frame]
              exact ranRecreate_append_left _ _
          · intro _
            simp [VulkanRenderer.draw_frame]
          · simp [VulkanRenderer.draw_frame]
      | otherError =>
          refine ⟨?_, ?_, ?_⟩
          · constructor
            · intro h
              refine absurd h (not_ranRecreate_of_short _ _ ?_)
              simp [VulkanRenderer.draw_frame, recreateEvents]
            · rintro (h | h | ⟨⟨b, h⟩, -⟩) <;> exact absurd h (by simp)
          · rintro (h | h) <;> exact absurd h (by simp)
          · simp [VulkanRenderer.draw_frame]

/-- Witness for **C4** at a concrete state: 2-image swapchain, successful
acquire of image 0, `SUBOPTIMAL` present. -/
theorem draw_frame_present_recreation_witness :
    0 < (VulkanRenderer.initialState 2).imageCount ∧
    ((ranRecreate (VulkanRenderer.initialState 2).gameObjects
        (VulkanRenderer.draw_frame (VulkanRenderer.initialState 2)
          (.ok (0, false)) (.error .suboptimalKHR)).trace ↔
      ((.error .suboptimalKHR : Except VkResult Bool) =
          .error .errorOutOfDateKHR ∨
        (.error .suboptimalKHR : Except VkResult Bool) =
          .error .suboptimalKHR ∨
        ((∃ b, (.error .suboptimalKHR : Except VkResult Bool) = .ok b) ∧
          (VulkanRenderer.initialState 2).isFramebufferResized = true))) ∧
    (((.error .suboptimalKHR : Except VkResult Bool) =
          .error .errorOutOfDateKHR ∨
        (.error .suboptimalKHR : Except VkResult Bool) =
          .error .suboptimalKHR) →
      (VulkanRenderer.draw_frame (VulkanRenderer.initialState 2)
        (.ok (0, false)) (.error .suboptimalKHR)).panicked = false) ∧
    ((VulkanRenderer.draw_frame (VulkanRenderer.initialState 2)
        (.ok (0, false)) (.error .suboptimalKHR)).panicked = true ↔
      (.error .suboptimalKHR : Except VkResult Bool) = .error .otherError)) :=
  ⟨by decide,
   draw_frame_present_recreation (VulkanRenderer.initialState 2) 0 false
     (.error .suboptimalKHR) (by decide)⟩

/-- A 2-image renderer state with the host resize flag set and no
renderables, used to exercise the acquire-`OUT_OF_DATE` recreation path. -/
def resizedState : RendererState :=
  { imageCount := 2, currentImage := 0, isFramebufferResized := true,
    gameObjects := [] }

/-- Counterexample to **C5** as stated: with the resize flag set, an
acquire-`OUT_OF_DATE` frame runs the full swapchain recreation, yet the
host resize flag is still set afterwards — recreation does not clear it. -/
theorem recreate_does_not_clear_resize_flag :
    ranRecreate resizedState.gameObjects
      (VulkanRenderer.draw_frame resizedState
        (.error .errorOutOfDateKHR) (.ok false)).trace ∧
    (VulkanRenderer.draw_frame resizedState
      (.error .errorOutOfDateKHR) (.ok false)).state.isFramebufferResized =
      true :=
  ⟨⟨[.advanceSlot 1, .acquireNextImage (.imageAvailable 1)], [], by decide⟩,
   by decide⟩

/-- **C5 (amended)**: every run of the swapchain recreation performs, in
order: `deviceWaitIdle`; free the command buffers; destroy pools, pipeline,
renderpass, swapchain; rebuild swapchain, renderpass, framebuffers,
pipeline, pools, command buffers; re-record all command buffers against the
current renderables list.  The recreation routine itself leaves the host
resize flag unchanged; the flag is cleared by `draw_frame`'s present path
immediately before it invokes recreation (so it ends clear there), while an
acquire-`OUT_OF_DATE` recreation leaves it as it was. -/
theorem recreate_swapchain_sequence :
    (∀ gos : List GameObject,
      recreateEvents gos =
        [.deviceWaitIdle, .freeCommandBuffers,
         .destroyPools, .destroyPipeline, .destroyRenderpass,
         .destroySwapchain,
         .createSwapchain, .createRenderpass, .createFramebuffers,
         .createPipeline, .createPools, .createCommandBuffers,
         .fillCommandBuffers gos]) ∧
    (∀ s : RendererState,
      (VulkanRenderer.recreate_swapchain s).isFramebufferResized =
        s.isFramebufferResized) ∧
    (∀ (s : RendererState) (idx : Nat) (sub : Bool)
        (pres : Except VkResult Bool),
      (pres = .error .errorOutOfDateKHR ∨ pres = .error .suboptimalKHR ∨
          (∃ b, pres = .ok b ∧ s.isFramebufferResized = true)) →
      (VulkanRenderer.draw_frame s (.ok (idx, sub))
        pres).state.isFramebufferResized = false) ∧
    (∀ (s : RendererState) (pres : Except VkResult Bool),
      (VulkanRenderer.draw_frame s (.error .errorOutOfDateKHR)
        pres).state.isFramebufferResized = s.isFramebufferResized) := by
  refine ⟨fun gos => rfl, fun s => rfl, ?_, ?_⟩
  · intro s idx sub pres h
    rcases h with rfl | rfl | ⟨b, rfl, hb⟩
    · simp [VulkanRenderer.draw_frame, VulkanRenderer.recreate_swapchain]
    · simp [VulkanRenderer.draw_frame, VulkanRenderer.recreate_swapchain]
    · simp [VulkanRenderer.draw_frame, VulkanRenderer.recreate_swapchain, hb]
  · intro s pres
    simp [VulkanRenderer.draw_frame, VulkanRenderer.recreate_swapchain]

/-- Witness for **C5 (amended)**: a present-path recreation (`SUBOPTIMAL`
present) ends with the flag clear, an acquire-path recreation on
`resizedState` leaves it set. -/
theorem recreate_swapchain_sequence_witness :
    (((.error .suboptimalKHR : Except VkResult Bool) =
          .error .errorOutOfDateKHR ∨
        (.error .suboptimalKHR : Except VkResult Bool) =
          .error .suboptimalKHR ∨
        (∃ b, (.error .suboptimalKHR : Except VkResult Bool) = .ok b ∧
          resizedState.isFramebufferResized = true)) ∧
      (VulkanRenderer.draw_frame resizedState (.ok (0, false))
        (.error .suboptimalKHR)).state.isFramebufferResized = false) ∧
    (VulkanRenderer.draw_frame resizedState (.error .errorOutOfDateKHR)
      (.ok false)).state.isFramebufferResized =
      resizedState.isFramebufferResized :=
  ⟨⟨Or.inr (Or.inl rfl),
    recreate_swapchain_sequence.2.2.1 resizedState 0 false
      (.error .suboptimalKHR) (Or.inr (Or.inl rfl))⟩,
   recreate_swapchain_sequence.2.2.2 resizedState (.ok false)⟩

/-- Every `cmd_push_constants` call recorded for a renderable targets the
vertex-and-fragment stage set at byte offset 0. -/
theorem recordGameObject_push_stages (g : GameObject)
    (st : ShaderStageFlags) (off : Nat) (d : PushConstantData)
    (h : Cmd.pushConstants st off d ∈ recordGameObject g) :
    st = vertexAndFragment ∧ off = 0 := by
  unfold recordGameObject at h
  rcases hib : g.mesh.index_buffer with _ | ib <;> rw [hib] at h <;>
    simp [List.mem_flatten, List.mem_map] at h
  obtain ⟨-, hst, hoff, -⟩ := h
  exact ⟨hst, hoff⟩

/-- **C6**: `PushConstantData` is exactly 48 bytes under `repr(C)`, with the
2×2 float matrix at byte offset 0 (16 bytes), the vec2 offset at byte
offset 16 (8 bytes) and the 16-byte-aligned vec3 color at byte offset 32;
and every recorded push targets both the vertex and fragment stages at
offset 0. -/
theorem push_constant_layout :
    reprCOffsets 0 pushConstantFields = [0, 16, 32] ∧
    uvMat2Ty.size = 16 ∧
    uvVec2Ty.size = 8 ∧
    (align16Ty uvVec3Ty).alignment = 16 ∧
    32 % 16 = 0 ∧
    reprCSize pushConstantFields = 48 ∧
    (∀ (i : Nat) (gos : List GameObject) (st : ShaderStageFlags)
        (off : Nat) (d : PushConstantData),
      Cmd.pushConstants st off d ∈ fillCommandbuffer i gos →
      st.vertex = true ∧ st.fragment = true ∧ off = 0) := by
  refine ⟨by decide, by decide, by decide, by decide, by decide, by decide,
    ?_⟩
  intro i gos st off d h
  simp [fillCommandbuffer, List.mem_flatten, List.mem_map] at h
  obtain ⟨g, -, hg⟩ := h
  obtain ⟨hst, hoff⟩ := recordGameObject_push_stages g st off d hg
  subst hst
  exact ⟨rfl, rfl, hoff⟩

/-- Witness for **C6**: a concrete renderable with 4 vertices and 6 indices
records a push to both stages at offset 0. -/
theorem push_constant_layout_witness :
    (Cmd.pushConstants vertexAndFragment 0
        ⟨(Transform2d.mk ⟨0, 0⟩ 0 ⟨1, 1⟩).mat2, ⟨0, 0⟩, ⟨1, 0, 0⟩⟩ ∈
      fillCommandbuffer 0
        [⟨⟨[VertexBuffer.new 0 4], some (IndexBuffer.new 1 6)⟩,
          Transform2d.mk ⟨0, 0⟩ 0 ⟨1, 1⟩, ⟨1, 0, 0⟩⟩]) ∧
    (vertexAndFragment.vertex = true ∧ vertexAndFragment.fragment = true ∧
      (0 : Nat) = 0) :=
  ⟨by decide,
   push_constant_layout.2.2.2.2.2.2 0
     [⟨⟨[VertexBuffer.new 0 4], some (IndexBuffer.new 1 6)⟩,
       Transform2d.mk ⟨0, 0⟩ 0 ⟨1, 1⟩, ⟨1, 0, 0⟩⟩]
     vertexAndFragment 0
     ⟨(Transform2d.mk ⟨0, 0⟩ 0 ⟨1, 1⟩).mat2, ⟨0, 0⟩, ⟨1, 0, 0⟩⟩
     (by decide)⟩

/-- **C7**: recording processes renderables in list order between the fixed
renderpass skeleton; for each renderable the graphics pipeline is bound,
then — with an index buffer — the index buffer is bound and, per vertex
buffer, the vertex buffer is bound, the push constants
`{transform, offset, color}` are pushed and
`drawIndexed(index_count, 1, 0, 0, 0)` is issued; without one, per vertex
buffer, the buffer is bound and `draw(vertex_count, 1, 0, 0)` is issued.
With zero renderables recording still begins and ends the renderpass
(a clear-only frame). -/
theorem fill_commandbuffers_recording :
    (∀ i : Nat, fillCommandbuffer i [] =
      [Cmd.beginCommandBuffer, Cmd.beginRenderPass i, Cmd.setViewport,
       Cmd.setScissor, Cmd.endRenderPass, Cmd.endCommandBuffer]) ∧
    (∀ (i : Nat) (gos : List GameObject),
      fillCommandbuffer i gos =
        [Cmd.beginCommandBuffer, Cmd.beginRenderPass i, Cmd.setViewport,
         Cmd.setScissor] ++ (gos.map recordGameObject).flatten ++
        [Cmd.endRenderPass, Cmd.endCommandBuffer]) ∧
    (∀ (g : GameObject) (ib : IndexBuffer), g.mesh.index_buffer = some ib →
      recordGameObject g =
        Cmd.bindPipeline :: Cmd.bindIndexBuffer ib.buffer ::
        (g.mesh.vertex_buffers.map (fun vb =>
          [Cmd.bindVertexBuffer vb.buffer,
           Cmd.pushConstants vertexAndFragment 0
             ⟨g.transform2d.mat2, g.transform2d.translation, g.color⟩,
           Cmd.drawIndexed ib.indexCount 1 0 0 0])).flatten) ∧
    (∀ g : GameObject, g.mesh.index_buffer = none →
      recordGameObject g =
        Cmd.bindPipeline ::
        (g.mesh.vertex_buffers.map (fun vb =>
          [Cmd.bindVertexBuffer vb.buffer,
           Cmd.draw vb.vertexCount 1 0 0])).flatten) := by
  refine ⟨fun i => rfl, fun i gos => rfl, ?_, ?_⟩
  · intro g ib hib
    unfold recordGameObject
    rw [hib]
  · intro g hib
    unfold recordGameObject
    rw [hib]

/-- Witness for **C7**: one indexed renderable (4 vertices, 6 indices) and
one indexless renderable at concrete values. -/
theorem fill_commandbuffers_recording_witness :
    ((⟨⟨[VertexBuffer.new 0 4], some (IndexBuffer.new 1 6)⟩,
        Transform2d.mk ⟨0, 0⟩ 0 ⟨1, 1⟩, ⟨1, 0, 0⟩⟩ :
          GameObject).mesh.index_buffer = some (IndexBuffer.new 1 6) ∧
      recordGameObject
        ⟨⟨[VertexBuffer.new 0 4], some (IndexBuffer.new 1 6)⟩,
          Transform2d.mk ⟨0, 0⟩ 0 ⟨1, 1⟩, ⟨1, 0, 0⟩⟩ =
        Cmd.bindPipeline ::
        Cmd.bindIndexBuffer (IndexBuffer.new 1 6).buffer ::
        (([VertexBuffer.new 0 4]).map (fun vb =>
          [Cmd.bindVertexBuffer vb.buffer,
           Cmd.pushConstants vertexAndFragment 0
             ⟨(Transform2d.mk ⟨0, 0⟩ 0 ⟨1, 1⟩).mat2,
              (Transform2d.mk ⟨0, 0⟩ 0 ⟨1, 1⟩).translation, ⟨1, 0, 0⟩⟩,
           Cmd.drawIndexed (IndexBuffer.new 1 6).indexCount 1 0 0
             0])).flatten) ∧
    ((⟨⟨[VertexBuffer.new 2 3], none⟩, Transform2d.mk ⟨0, 0⟩ 0 ⟨1, 1⟩,
        ⟨0, 1, 0⟩⟩ : GameObject).mesh.index_buffer = none ∧
      recordGameObject
        ⟨⟨[VertexBuffer.new 2 3], none⟩, Transform2d.mk ⟨0, 0⟩ 0 ⟨1, 1⟩,
          ⟨0, 1, 0⟩⟩ =
        Cmd.bindPipeline ::
        (([VertexBuffer.new 2 3]).map (fun vb =>
          [Cmd.bindVertexBuffer vb.buffer,
           Cmd.draw vb.vertexCount 1 0 0])).flatten) :=
  ⟨⟨rfl, fill_commandbuffers_recording.2.2.1
      ⟨⟨[VertexBuffer.new 0 4], some (IndexBuffer.new 1 6)⟩,
        Transform2d.mk ⟨0, 0⟩ 0 ⟨1, 1⟩, ⟨1, 0, 0⟩⟩
      (IndexBuffer.new 1 6) rfl⟩,
   ⟨rfl, fill_commandbuffers_recording.2.2.2
      ⟨⟨[VertexBuffer.new 2 3], none⟩, Transform2d.mk ⟨0, 0⟩ 0 ⟨1, 1⟩,
        ⟨0, 1, 0⟩⟩ rfl⟩⟩

/-- Counterexample to **C8** as stated: the destructor's destruction order,
restricted to the ten resources the claim lists, is not the strict reverse
of their creation order — the allocator is destroyed after the swapchain
(sixth), not immediately after the command buffers (second). -/
theorem drop_not_strict_reverse :
    dropDestroyOrder.filter (fun r => creationOrder.contains r) ≠
      creationOrder.reverse := by
  decide

/-- **C8 (amended)**: on drop, `deviceWaitIdle` is called once, before any
destroy; the renderables' meshes are released first; the remaining
resources are destroyed in the strict reverse of their creation order with
one exception: the allocator is dropped after the swapchain, immediately
before the device, rather than immediately after the command buffers. -/
theorem drop_teardown_order :
    dropTrace = .waitIdle :: dropDestroyOrder.map DropStep.destroy ∧
    dropDestroyOrder =
      [.meshes, .commandBuffers, .pools, .pipeline, .renderpass, .swapchain,
       .allocator, .device, .surface, .debugMessenger, .inst] ∧
    dropDestroyOrder.filter (fun r =>
        creationOrder.contains r && !(r == Resource.allocator)) =
      (creationOrder.filter (fun r => !(r == Resource.allocator))).reverse := by
  refine ⟨by decide, by decide, by decide⟩

/-- **C9**: calling `update_indices_buffer` on an `Object` without an index
buffer emits the diagnostic, changes no buffer state and returns (the
function is total, i.e. always succeeds); with an index buffer present the
update is forwarded to that buffer. -/
theorem update_indices_buffer_behavior (o : Object) (d : List Nat) :
    (o.index_buffer = none →
      o.update_indices_buffer d = (o, [indexlessUpdateDiagnostic])) ∧
    (∀ ib : IndexBuffer, o.index_buffer = some ib →
      o.update_indices_buffer d =
        ({ o with index_buffer := some (ib.update_buffer d) }, [])) := by
  constructor
  · intro h
    unfold Object.update_indices_buffer
    rw [h]
  · intro ib h
    unfold Object.update_indices_buffer
    rw [h]

/-- Witness for **C9**: a concrete indexless object (4 vertices, 0 indices)
and a concrete indexed buffer. -/
theorem update_indices_buffer_behavior_witness :
    ((Object.mk [VertexBuffer.new 0 4] none).index_buffer = none ∧
      (Object.mk [VertexBuffer.new 0 4] none).update_indices_buffer
        [0, 1, 2] =
        (Object.mk [VertexBuffer.new 0 4] none,
         [indexlessUpdateDiagnostic])) ∧
    ((Object.mk [VertexBuffer.new 0 4]
        (some (IndexBuffer.new 1 6))).index_buffer =
      some (IndexBuffer.new 1 6) ∧
      (Object.mk [VertexBuffer.new 0 4]
        (some (IndexBuffer.new 1 6))).update_indices_buffer [0, 1, 2] =
        (Object.mk [VertexBuffer.new 0 4]
          (some ((IndexBuffer.new 1 6).update_buffer [0, 1, 2])), [])) :=
  ⟨⟨rfl, (update_indices_buffer_behavior
      (Object.mk [VertexBuffer.new 0 4] none) [0, 1, 2]).1 rfl⟩,
   ⟨rfl, (update_indices_buffer_behavior
      (Object.mk [VertexBuffer.new 0 4] (some (IndexBuffer.new 1 6)))
      [0, 1, 2]).2 (IndexBuffer.new 1 6) rfl⟩⟩

/-- **C10**: `Object::new` always returns `Ok` with exactly one vertex
buffer (also for `vertex_count = 0`) and an index buffer iff
`index_count > 0`; no operation changes the number of vertex buffers; and
`update_vertices_buffer`'s access to `vertex_buffers[0]` succeeds whenever
the vector is nonempty (as it is for every object built by `new`). -/
theorem object_vertex_buffer_safety :
    (∀ vc ic : Nat, ∃ o : Object, Object.new vc ic = .ok o ∧
      o.vertex_buffers.length = 1 ∧ (o.index_buffer.isSome = true ↔ 0 < ic)) ∧
    (∀ (o o' : Object) (d : List Vertex),
      o.update_vertices_buffer d = some o' →
      o'.vertex_buffers.length = o.vertex_buffers.length) ∧
    (∀ (o : Object) (d : List Nat),
      (o.update_indices_buffer d).1.vertex_buffers.length =
        o.vertex_buffers.length) ∧
    (∀ o : Object,
      o.destroy.vertex_buffers.length = o.vertex_buffers.length) ∧
    (∀ (o : Object) (d : List Vertex), 0 < o.vertex_buffers.length →
      (o.update_vertices_buffer d).isSome = true) := by
  refine ⟨?_, ?_, ?_, ?_, ?_⟩
  · intro vc ic
    unfold Object.new
    by_cases h : ic > 0
    · rw [if_pos h]
      exact ⟨_, rfl, rfl, by simp [h]⟩
    · rw [if_neg h]
      exact ⟨_, rfl, rfl, by simp [h]⟩
  · intro o o' d h
    unfold Object.update_vertices_buffer at h
    cases hvb : o.vertex_buffers with
    | nil =>
        rw [hvb] at h
        exact absurd h (by simp)
    | cons vb rest =>
        rw [hvb] at h
        obtain rfl := Option.some.inj h
        simp [hvb]
  · intro o d
    unfold Object.update_indices_buffer
    cases h : o.index_buffer <;> rfl
  · intro o
    simp [Object.destroy]
  · intro o d h
    unfold Object.update_vertices_buffer
    cases hvb : o.vertex_buffers with
    | nil => rw [hvb] at h; exact absurd h (by simp)
    | cons vb rest => rfl

/-- Witness for **C10** at concrete inputs: `vertex_count = 0`,
`index_count = 0` still yields one vertex buffer, and a 1-buffer object's
vertex update succeeds. -/
theorem object_vertex_buffer_safety_witness :
    (∃ o : Object, Object.new 0 0 = .ok o ∧ o.vertex_buffers.length = 1 ∧
      (o.index_buffer.isSome = true ↔ 0 < 0)) ∧
    (0 < (Object.mk [VertexBuffer.new 0 4] none).vertex_buffers.length ∧
      ((Object.mk [VertexBuffer.new 0 4] none).update_vertices_buffer
        []).isSome = true) :=
  ⟨object_vertex_buffer_safety.1 0 0,
   by decide,
   object_vertex_buffer_safety.2.2.2.2
     (Object.mk [VertexBuffer.new 0 4] none) [] (by decide)⟩

end Reverie
